import Mathlib

/-
Verification of the two example notebooks stored in
docs/examples/embeddings/nomic.ipynb (a Nomic-embedding demo followed by a
recursive-retriever document-agents demo).  The notebooks are straight-line
glue code; this file gives a shallow embedding of their observable behaviour:
the Wikipedia download loop, the document-loading loop, the agent- and
object-building loops, and an event-trace view of the cell sequence.
-/

namespace NotebookModel

/-! ## Association lists (Python dict / on-disk file map) -/

/-- Lookup in an association list keyed by strings, first match wins
(the behaviour of a Python dict lookup). -/
def lookupA {α : Type} : List (String × α) → String → Option α
  | [], _ => none
  | (k, v) :: rest, key => if k = key then some v else lookupA rest key

/-- Replace the binding of a key in place, or append a fresh binding at the
end (the behaviour of a Python dict insert, and of rewriting a file). -/
def setAssoc {α : Type} : List (String × α) → String → α → List (String × α)
  | [], k, v => [(k, v)]
  | (k0, v0) :: rest, k, v =>
      if k0 = k then (k, v) :: rest else (k0, v0) :: setAssoc rest k v

theorem lookupA_setAssoc_self {α : Type} (m : List (String × α)) (k : String) (v : α) :
    lookupA (setAssoc m k v) k = some v := by
  induction m with
  | nil => simp [setAssoc, lookupA]
  | cons hd tl ih =>
      obtain ⟨k0, v0⟩ := hd
      by_cases h : k0 = k
      · simp [setAssoc, h, lookupA]
      · simp [setAssoc, h, lookupA, ih]

theorem lookupA_setAssoc_ne {α : Type} (m : List (String × α)) {k key : String}
    (v : α) (h : k ≠ key) : lookupA (setAssoc m k v) key = lookupA m key := by
  induction m with
  | nil => simp [setAssoc, lookupA, h]
  | cons hd tl ih =>
      obtain ⟨k0, v0⟩ := hd
      by_cases h0 : k0 = k
      · subst h0
        simp [setAssoc, lookupA, h]
      · simp [setAssoc, h0, lookupA, ih]

/-! ## The Wikipedia API response model

The second notebook runs, for each city title,

  response = requests.get("https://en.wikipedia.org/w/api.php", params=...).json()
  page = next(iter(response["query"]["pages"].values()))
  wiki_text = page["extract"]

so a response is a JSON object that may lack the "query" key, whose query
object may lack the "pages" key, whose pages dict may be empty, and whose
first page may lack the "extract" key.  Each missing step raises the
corresponding Python exception. -/

/-- One page object of the wiki API reply: its "extract" field, when present. -/
structure WikiPage where
  extract : Option String
deriving DecidableEq, Repr

/-- The "query" member of the wiki API reply: its "pages" dict, when present,
as a list of (page id, page) entries in dict iteration order. -/
structure WikiQueryObj where
  pages : Option (List (String × WikiPage))
deriving DecidableEq, Repr

/-- A decoded wiki API JSON reply: its "query" member, when present. -/
structure WikiResponse where
  query : Option WikiQueryObj
deriving DecidableEq, Repr

/-- The Python exceptions the download loop can raise. -/
inductive PyError where
  | keyError (key : String)
  | stopIteration
  | requestError
deriving DecidableEq, Repr

/-- The chain response["query"]["pages"] / next(iter(...)) / page["extract"]:
the extract of the first page, or the Python exception raised on the way. -/
def getWikiText (r : WikiResponse) : Except PyError String :=
  match r.query with
  | none => Except.error (PyError.keyError "query")
  | some q =>
    match q.pages with
    | none => Except.error (PyError.keyError "pages")
    | some [] => Except.error PyError.stopIteration
    | some ((_, p) :: _) =>
      match p.extract with
      | none => Except.error (PyError.keyError "extract")
      | some t => Except.ok t

instance {ε α : Type} [DecidableEq ε] [DecidableEq α] : DecidableEq (Except ε α) :=
  fun a b =>
  match a, b with
  | Except.ok x, Except.ok y => decidable_of_iff (x = y) (by simp)
  | Except.error x, Except.error y => decidable_of_iff (x = y) (by simp)
  | Except.ok _, Except.error _ => isFalse (by simp)
  | Except.error _, Except.ok _ => isFalse (by simp)

/-- The network fetch followed by response decoding; the oracle api stands
for the external wiki service and may itself fail (network error). -/
def fetchExtract (api : String → Except PyError WikiResponse) (t : String) :
    Except PyError String :=
  match api t with
  | Except.error e => Except.error e
  | Except.ok r => getWikiText r

/-! ## The download loop state -/

/-- One outbound HTTP GET issued by the loop. -/
structure HttpReq where
  url : String
  params : List (String × String)
deriving DecidableEq, Repr

def wikiApiUrl : String := "https://en.wikipedia.org/w/api.php"

/-- The query parameters the loop passes for a title. -/
def wikiParams (t : String) : List (String × String) :=
  [("action", "query"), ("format", "json"), ("titles", t),
   ("prop", "extracts"), ("explaintext", "True")]

def wikiRequest (t : String) : HttpReq :=
  { url := wikiApiUrl, params := wikiParams t }

/-- Observable state of the download loop: local files (path to contents),
created directories, the log of HTTP requests issued, and the log of file
opens as (path, mode) pairs. -/
structure DLState where
  files : List (String × String)
  dirs : List String
  httpLog : List HttpReq
  openLog : List (String × String)
deriving DecidableEq, Repr

def initState : DLState := { files := [], dirs := [], httpLog := [], openLog := [] }

/-- Record the outbound GET for a title. -/
def pushHttp (st : DLState) (t : String) : DLState :=
  { st with httpLog := st.httpLog ++ [wikiRequest t] }

/-- Path.mkdir guarded by the existence check in the loop body. -/
def ensureDir (st : DLState) (d : String) : DLState :=
  if d ∈ st.dirs then st else { st with dirs := st.dirs ++ [d] }

/-- open(path, "w") followed by fp.write(content): the file is truncated and
rewritten, and the open event is logged with its mode. -/
def openAndWrite (st : DLState) (path content : String) : DLState :=
  { st with
      files := setAssoc st.files path content,
      openLog := st.openLog ++ [(path, "w")] }

/-- The local file the loop writes for a title: data/<title>.txt. -/
def dataFile (t : String) : String := "data/" ++ t ++ ".txt"

/-- Final state of the loop together with the first uncaught exception,
when one was raised. -/
structure RunResult where
  state : DLState
  error : Option PyError
deriving DecidableEq, Repr

/-- The download loop of the second notebook: for each title, issue the GET,
decode the extract of the first page, create the data directory when missing,
and write data/<title>.txt in mode "w".  There is no try/except: the first
exception stops the loop and is returned as the uncaught error, with the
state reached so far. -/
def downloadLoop (api : String → Except PyError WikiResponse) :
    List String → DLState → RunResult
  | [], st => { state := st, error := none }
  | t :: ts, st =>
    match fetchExtract api t with
    | Except.error e => { state := pushHttp st t, error := some e }
    | Except.ok txt =>
        downloadLoop api ts (openAndWrite (ensureDir (pushHttp st t) "data") (dataFile t) txt)

/-- The titles list of the second notebook. -/
def wikiTitles : List String := ["Toronto", "Seattle", "Chicago", "Boston", "Houston"]

/-! ## The effect of one successful iteration, and of a successful prefix -/

/-- The state transformation of one successful loop iteration whose decoded
extract is texts t. -/
def applyOk (texts : String → String) (st : DLState) (t : String) : DLState :=
  openAndWrite (ensureDir (pushHttp st t) "data") (dataFile t) (texts t)

/-- The compound effect of successfully processing a list of titles. -/
def foldOk (texts : String → String) (titles : List String) (st : DLState) : DLState :=
  titles.foldl (applyOk texts) st

theorem foldOk_nil (texts : String → String) (st : DLState) :
    foldOk texts [] st = st := rfl

theorem foldOk_cons (texts : String → String) (t : String) (ts : List String)
    (st : DLState) : foldOk texts (t :: ts) st = foldOk texts ts (applyOk texts st t) := rfl

theorem downloadLoop_ok_front (api : String → Except PyError WikiResponse)
    (texts : String → String) :
    ∀ (pre rest : List String) (st : DLState),
      (∀ p ∈ pre, fetchExtract api p = Except.ok (texts p)) →
      downloadLoop api (pre ++ rest) st = downloadLoop api rest (foldOk texts pre st) := by
  intro pre
  induction pre with
  | nil => intro rest st _; simp [foldOk]
  | cons p ps ih =>
      intro rest st h
      have hp : fetchExtract api p = Except.ok (texts p) := h p (by simp)
      have hps : ∀ q ∈ ps, fetchExtract api q = Except.ok (texts q) := by
        intro q hq; exact h q (by simp [hq])
      rw [List.cons_append]
      simp only [downloadLoop, hp]
      rw [ih rest _ hps, foldOk_cons]
      rfl

theorem applyOk_httpLog (texts : String → String) (st : DLState) (t : String) :
    (applyOk texts st t).httpLog = st.httpLog ++ [wikiRequest t] := by
  unfold applyOk openAndWrite ensureDir pushHttp
  split <;> rfl

theorem applyOk_openLog (texts : String → String) (st : DLState) (t : String) :
    (applyOk texts st t).openLog = st.openLog ++ [(dataFile t, "w")] := by
  unfold applyOk openAndWrite ensureDir pushHttp
  split <;> rfl

theorem applyOk_files (texts : String → String) (st : DLState) (t : String) :
    (applyOk texts st t).files = setAssoc st.files (dataFile t) (texts t) := by
  unfold applyOk openAndWrite ensureDir pushHttp
  split <;> rfl

theorem applyOk_dirs_data (texts : String → String) (st : DLState) (t : String) :
    "data" ∈ (applyOk texts st t).dirs := by
  unfold applyOk openAndWrite ensureDir pushHttp
  split <;> simp_all

theorem foldOk_httpLog (texts : String → String) :
    ∀ (titles : List String) (st : DLState),
      (foldOk texts titles st).httpLog = st.httpLog ++ titles.map wikiRequest := by
  intro titles
  induction titles with
  | nil => intro st; simp [foldOk]
  | cons t ts ih =>
      intro st
      rw [foldOk_cons, ih, applyOk_httpLog]
      simp

theorem foldOk_openLog (texts : String → String) :
    ∀ (titles : List String) (st : DLState),
      (foldOk texts titles st).openLog =
        st.openLog ++ titles.map (fun t => (dataFile t, "w")) := by
  intro titles
  induction titles with
  | nil => intro st; simp [foldOk]
  | cons t ts ih =>
      intro st
      rw [foldOk_cons, ih, applyOk_openLog]
      simp

theorem foldOk_dirs_data (texts : String → String) :
    ∀ (titles : List String) (st : DLState), titles ≠ [] →
      "data" ∈ (foldOk texts titles st).dirs := by
  intro titles
  induction titles with
  | nil => intro st h; exact absurd rfl h
  | cons t ts ih =>
      intro st _
      cases ts with
      | nil => rw [foldOk_cons, foldOk_nil]; exact applyOk_dirs_data texts st t
      | cons u us => rw [foldOk_cons]; exact ih _ (by simp)

theorem foldOk_files_untouched (texts : String → String) :
    ∀ (titles : List String) (st : DLState) (k : String),
      (∀ q ∈ titles, dataFile q ≠ k) →
      lookupA (foldOk texts titles st).files k = lookupA st.files k := by
  intro titles
  induction titles with
  | nil => intro st k _; rfl
  | cons t ts ih =>
      intro st k h
      rw [foldOk_cons, ih _ k (fun q hq => h q (by simp [hq]))]
      rw [applyOk_files, lookupA_setAssoc_ne _ _ (h t (by simp))]

theorem foldOk_files_lookup (texts : String → String) :
    ∀ (titles : List String) (st : DLState) (p : String), p ∈ titles →
      (titles.map dataFile).Nodup →
      lookupA (foldOk texts titles st).files (dataFile p) = some (texts p) := by
  intro titles
  induction titles with
  | nil => intro st p hp _; simp at hp
  | cons t ts ih =>
      intro st p hp hnd
      rw [List.map_cons, List.nodup_cons] at hnd
      by_cases hmem : p ∈ ts
      · rw [foldOk_cons]; exact ih _ p hmem hnd.2
      · have hpt : p = t := by
          rcases List.mem_cons.mp hp with h | h
          · exact h
          · exact absurd h hmem
        subst hpt
        rw [foldOk_cons]
        rw [foldOk_files_untouched texts ts _ (dataFile p)
          (fun q hq => fun hcontra => hnd.1 (hcontra ▸ List.mem_map_of_mem dataFile hq))]
        rw [applyOk_files, lookupA_setAssoc_self]

/-! ## Claim theorems about the download loop -/

/-- C1: for every title in wiki_titles the loop issues one HTTPS GET to
https://en.wikipedia.org/w/api.php with the query parameters for that title,
creates the data directory when missing, and writes the plain-text extract of
the first page of the decoded JSON reply to data/<title>.txt; when every call
succeeds the loop finishes without error with one such file per title. -/
theorem c1_download_loop (api : String → Except PyError WikiResponse)
    (texts : String → String) (t : String) (ht : t ∈ wikiTitles)
    (h : ∀ u ∈ wikiTitles, ∃ pid rest, api u = Except.ok
      { query := some { pages := some ((pid, { extract := some (texts u) }) :: rest) } }) :
    (downloadLoop api wikiTitles initState).error = none ∧
    (downloadLoop api wikiTitles initState).state.httpLog = wikiTitles.map wikiRequest ∧
    "data" ∈ (downloadLoop api wikiTitles initState).state.dirs ∧
    lookupA (downloadLoop api wikiTitles initState).state.files (dataFile t)
      = some (texts t) := by
  have hfe : ∀ u ∈ wikiTitles, fetchExtract api u = Except.ok (texts u) := by
    intro u hu
    obtain ⟨pid, rest, he⟩ := h u hu
    simp [fetchExtract, he, getWikiText]
  have hrun : downloadLoop api wikiTitles initState =
      { state := foldOk texts wikiTitles initState, error := none } := by
    have hstep := downloadLoop_ok_front api texts wikiTitles [] initState hfe
    rw [List.append_nil] at hstep
    rw [hstep]
    rfl
  rw [hrun]
  refine ⟨rfl, ?_, ?_, ?_⟩
  · rw [foldOk_httpLog]; rfl
  · exact foldOk_dirs_data texts wikiTitles initState (by simp [wikiTitles])
  · exact foldOk_files_lookup texts wikiTitles initState t ht (by decide)

/-- A concrete wiki oracle that answers every title with a well-formed reply
holding one page whose extract is textsW applied to the title. -/
def apiW : String → Except PyError WikiResponse := fun t =>
  Except.ok { query := some { pages := some [("1", { extract := some ("text of " ++ t) })] } }

def textsW : String → String := fun t => "text of " ++ t

theorem c1_download_loop_witness :
    "Toronto" ∈ wikiTitles ∧
    ((downloadLoop apiW wikiTitles initState).error = none ∧
     (downloadLoop apiW wikiTitles initState).state.httpLog = wikiTitles.map wikiRequest ∧
     "data" ∈ (downloadLoop apiW wikiTitles initState).state.dirs ∧
     lookupA (downloadLoop apiW wikiTitles initState).state.files (dataFile "Toronto")
       = some (textsW "Toronto")) :=
  ⟨by decide, c1_download_loop apiW textsW "Toronto" (by decide)
    (fun u _ => ⟨"1", [], rfl⟩)⟩

/-- C3: no operation of the loop catches, retries or reports a failure.  When
the calls for a prefix of titles succeed and the next call raises (network
error or a reply missing the query, pages or extract field), the loop stops
with that exception as its uncaught error, having issued exactly one request
per attempted title (no retries), and the files already written for the
earlier titles are left exactly as they were. -/
theorem c3_failure_propagation (api : String → Except PyError WikiResponse)
    (texts : String → String) (pre : List String) (t : String) (post : List String)
    (e : PyError) (p : String) (hp : p ∈ pre)
    (hpre : ∀ q ∈ pre, fetchExtract api q = Except.ok (texts q))
    (hnd : (pre.map dataFile).Nodup)
    (hfail : fetchExtract api t = Except.error e) :
    (downloadLoop api (pre ++ t :: post) initState).error = some e ∧
    (downloadLoop api (pre ++ t :: post) initState).state.httpLog
      = (pre ++ [t]).map wikiRequest ∧
    (downloadLoop api (pre ++ t :: post) initState).state.files
      = (foldOk texts pre initState).files ∧
    lookupA (downloadLoop api (pre ++ t :: post) initState).state.files (dataFile p)
      = some (texts p) := by
  have hrun : downloadLoop api (pre ++ t :: post) initState =
      { state := pushHttp (foldOk texts pre initState) t, error := some e } := by
    rw [downloadLoop_ok_front api texts pre (t :: post) initState hpre]
    simp only [downloadLoop, hfail]
  rw [hrun]
  refine ⟨rfl, ?_, rfl, ?_⟩
  · show (foldOk texts pre initState).httpLog ++ [wikiRequest t] = _
    rw [foldOk_httpLog]
    simp [initState]
  · show lookupA (foldOk texts pre initState).files (dataFile p) = some (texts p)
    exact foldOk_files_lookup texts pre initState p hp hnd

/-- A wiki oracle whose reply for Chicago lacks the extract field and is
well-formed for every other title. -/
def apiFail : String → Except PyError WikiResponse := fun t =>
  if t = "Chicago" then
    Except.ok { query := some { pages := some [("1", { extract := none })] } }
  else
    Except.ok { query := some { pages := some [("1", { extract := some ("text of " ++ t) })] } }

theorem c3_failure_propagation_witness :
    "Toronto" ∈ ["Toronto", "Seattle"] ∧
    ((downloadLoop apiFail (["Toronto", "Seattle"] ++ "Chicago" :: ["Boston", "Houston"]) initState).error
        = some (PyError.keyError "extract") ∧
     (downloadLoop apiFail (["Toronto", "Seattle"] ++ "Chicago" :: ["Boston", "Houston"]) initState).state.httpLog
        = (["Toronto", "Seattle"] ++ ["Chicago"]).map wikiRequest ∧
     (downloadLoop apiFail (["Toronto", "Seattle"] ++ "Chicago" :: ["Boston", "Houston"]) initState).state.files
        = (foldOk textsW ["Toronto", "Seattle"] initState).files ∧
     lookupA (downloadLoop apiFail (["Toronto", "Seattle"] ++ "Chicago" :: ["Boston", "Houston"]) initState).state.files
        (dataFile "Toronto") = some (textsW "Toronto")) :=
  ⟨by decide,
   c3_failure_propagation apiFail textsW ["Toronto", "Seattle"] "Chicago"
     ["Boston", "Houston"] (PyError.keyError "extract") "Toronto"
     (by decide) (by decide) (by decide) (by decide)⟩

/-- C10: every file the loop opens is opened in mode "w", and running the
loop a second time with identical API responses rewrites each file with the
same contents, so the on-disk file map after two runs equals the map after a
single run (idempotent, never appending). -/
theorem c10_write_mode_idempotent (api : String → Except PyError WikiResponse)
    (texts : String → String)
    (h : ∀ u ∈ wikiTitles, fetchExtract api u = Except.ok (texts u)) :
    (downloadLoop api wikiTitles initState).state.openLog
      = wikiTitles.map (fun t => (dataFile t, "w")) ∧
    (downloadLoop api wikiTitles ((downloadLoop api wikiTitles initState).state)).state.files
      = (downloadLoop api wikiTitles initState).state.files := by
  have hrun : ∀ st : DLState, downloadLoop api wikiTitles st =
      { state := foldOk texts wikiTitles st, error := none } := by
    intro st
    have hstep := downloadLoop_ok_front api texts wikiTitles [] st h
    rw [List.append_nil] at hstep
    rw [hstep]
    rfl
  simp only [hrun]
  constructor
  · rw [foldOk_openLog]; rfl
  · show (foldOk texts wikiTitles (foldOk texts wikiTitles initState)).files
        = (foldOk texts wikiTitles initState).files
    simp [wikiTitles, foldOk, applyOk, openAndWrite, ensureDir, pushHttp,
      dataFile, initState, setAssoc]

theorem c10_write_mode_idempotent_witness :
    (downloadLoop apiW wikiTitles initState).state.openLog
      = wikiTitles.map (fun t => (dataFile t, "w")) ∧
    (downloadLoop apiW wikiTitles ((downloadLoop apiW wikiTitles initState).state)).state.files
      = (downloadLoop apiW wikiTitles initState).state.files :=
  c10_write_mode_idempotent apiW textsW (by decide)

/-! ## Documents, indices, tools, agents and objects of the second notebook -/

/-- A document produced by the external reader from one input file. -/
structure Document where
  file_path : String
  text : String
deriving DecidableEq, Repr

/-- The city_docs loading loop: for each title, SimpleDirectoryReader is
called with input_files = [data/<title>.txt] and the resulting document list
is stored under the title.  The external reader is the oracle load. -/
def buildCityDocs (load : List String → List Document) (titles : List String) :
    List (String × List Document) :=
  titles.map (fun t => (t, load [dataFile t]))

/-- An index built by the external library from a document list: its kind
(vector or summary) and the documents it was built from. -/
structure Index where
  kind : String
  docs : List Document
deriving DecidableEq, Repr

/-- A query engine wrapping the index it was derived from. -/
structure QueryEngine where
  index : Index
deriving DecidableEq, Repr

def Index.as_query_engine (i : Index) : QueryEngine := { index := i }

/-- The metadata attached to a QueryEngineTool. -/
structure ToolMetadata where
  name : String
  description : String
deriving DecidableEq, Repr

/-- A tool wrapping a query engine. -/
structure QueryEngineTool where
  query_engine : QueryEngine
  metadata : ToolMetadata
deriving DecidableEq, Repr

/-- An OpenAIAgent assembled from tools and a function-calling LLM. -/
structure Agent where
  tools : List QueryEngineTool
  llmModel : String
deriving DecidableEq, Repr

def vectorToolDesc (t : String) : String :=
  "Useful for retrieving specific context from " ++ t

def summaryToolDesc (t : String) : String :=
  "Useful for summarization questions related to " ++ t

/-- One iteration of the agent-building loop: a vector index and a summary
index over the documents of the title, a query engine on each, the two tools
named vector_tool and summary_tool, and the agent built from them with the
gpt-3.5-turbo-0613 function LLM. -/
def buildAgentFor (docsOf : String → List Document) (t : String) : Agent :=
  let vector_index : Index := { kind := "vector", docs := docsOf t }
  let summary_index : Index := { kind := "summary", docs := docsOf t }
  let vector_query_engine := vector_index.as_query_engine
  let list_query_engine := summary_index.as_query_engine
  { tools :=
      [{ query_engine := vector_query_engine,
         metadata := { name := "vector_tool", description := vectorToolDesc t } },
       { query_engine := list_query_engine,
         metadata := { name := "summary_tool", description := summaryToolDesc t } }],
    llmModel := "gpt-3.5-turbo-0613" }

/-- The agents dictionary built by the loop over wiki_titles. -/
def buildAgents (docsOf : String → List Document) (titles : List String) :
    List (String × Agent) :=
  titles.map (fun t => (t, buildAgentFor docsOf t))

/-- The summary text of the IndexNode for a title, exactly as the notebook
formats it. -/
def wikiSummaryText (t : String) : String :=
  "This content contains Wikipedia articles about " ++ t ++
    ". Use this index if you need to lookup specific facts about " ++ t ++
    ".\nDo not use this index if you want to analyze multiple cities."

/-- An IndexNode linking a summary text to a document agent. -/
structure IndexNode where
  text : String
  index_id : String
  obj : Agent
deriving DecidableEq, Repr

/-- The objects loop: one IndexNode per title, in the order of wiki_titles,
whose obj is the entry of the agents dictionary for that title. -/
def buildObjects (docsOf : String → List Document) : List IndexNode :=
  wikiTitles.map (fun t =>
    { text := wikiSummaryText t, index_id := t,
      obj := (lookupA (buildAgents docsOf wikiTitles) t).getD
        { tools := [], llmModel := "" } })

/-- The top-level query engine: vector_index.as_query_engine over the
IndexNode objects with similarity_top_k = 1. -/
structure ObjectsQueryEngine where
  objects : List IndexNode
  similarity_top_k : Nat
deriving DecidableEq, Repr

def topQueryEngine (docsOf : String → List Document) : ObjectsQueryEngine :=
  { objects := buildObjects docsOf, similarity_top_k := 1 }

/-- The top-level retrieval step: the externally computed similarity ranking
of the IndexNodes is truncated to the top similarity_top_k nodes, each of
which routes the query to its document agent. -/
def routeQuery (qe : ObjectsQueryEngine) (ranking : List IndexNode) : List IndexNode :=
  ranking.take qe.similarity_top_k

/-! ## Claim theorems about the loading, agents and objects loops -/

/-- C5: after the loading loop, city_docs has exactly the titles of
wiki_titles as its keys, in order, and the value of every title is the
document list the reader loads from the single file data/<title>.txt. -/
theorem c5_city_docs (load : List String → List Document) (t : String)
    (ht : t ∈ wikiTitles) :
    (buildCityDocs load wikiTitles).map Prod.fst = wikiTitles ∧
    lookupA (buildCityDocs load wikiTitles) t = some (load [dataFile t]) := by
  constructor
  · rfl
  · fin_cases ht <;> rfl

/-- A concrete stand-in for the external reader. -/
def loadW : List String → List Document :=
  fun fs => fs.map (fun f => { file_path := f, text := "contents" })

theorem c5_city_docs_witness :
    "Seattle" ∈ wikiTitles ∧
    ((buildCityDocs loadW wikiTitles).map Prod.fst = wikiTitles ∧
     lookupA (buildCityDocs loadW wikiTitles) "Seattle"
       = some (loadW [dataFile "Seattle"])) :=
  ⟨by decide, c5_city_docs loadW "Seattle" (by decide)⟩

/-- C8: after the agent-building loop, agents has exactly the titles of
wiki_titles as its keys, and the agent of every title is built from exactly
two tools: vector_tool wrapping a query engine over the vector index of the
documents of that title, and summary_tool wrapping a query engine over the
summary index of the same documents. -/
theorem c8_agents (docsOf : String → List Document) (t : String)
    (ht : t ∈ wikiTitles) :
    (buildAgents docsOf wikiTitles).map Prod.fst = wikiTitles ∧
    lookupA (buildAgents docsOf wikiTitles) t = some (buildAgentFor docsOf t) ∧
    (buildAgentFor docsOf t).tools.length = 2 ∧
    (buildAgentFor docsOf t).tools.map
        (fun tool => (tool.metadata.name, tool.query_engine.index.kind,
          tool.query_engine.index.docs))
      = [("vector_tool", "vector", docsOf t), ("summary_tool", "summary", docsOf t)] := by
  refine ⟨rfl, ?_, rfl, rfl⟩
  fin_cases ht <;> rfl

/-- A concrete stand-in for the city_docs lookup. -/
def docsOfW : String → List Document :=
  fun t => [{ file_path := dataFile t, text := "contents" }]

theorem c8_agents_witness :
    "Chicago" ∈ wikiTitles ∧
    ((buildAgents docsOfW wikiTitles).map Prod.fst = wikiTitles ∧
     lookupA (buildAgents docsOfW wikiTitles) "Chicago"
       = some (buildAgentFor docsOfW "Chicago") ∧
     (buildAgentFor docsOfW "Chicago").tools.length = 2 ∧
     (buildAgentFor docsOfW "Chicago").tools.map
         (fun tool => (tool.metadata.name, tool.query_engine.index.kind,
           tool.query_engine.index.docs))
       = [("vector_tool", "vector", docsOfW "Chicago"),
          ("summary_tool", "summary", docsOfW "Chicago")]) :=
  ⟨by decide, c8_agents docsOfW "Chicago" (by decide)⟩

/-- C9: the objects list holds one IndexNode per title of wiki_titles in
order, with index_id the title and obj the entry of the agents dictionary
for the title; the top-level query engine over these objects has
similarity_top_k = 1, so a top-level query is routed to at most one document
agent. -/
theorem c9_objects (docsOf : String → List Document) (ranking : List IndexNode)
    (i : Nat) (hi : i < 5) :
    (buildObjects docsOf).length = wikiTitles.length ∧
    ((buildObjects docsOf)[i]?.map IndexNode.index_id) = wikiTitles[i]? ∧
    ((buildObjects docsOf)[i]?.map IndexNode.obj)
      = (wikiTitles[i]?.bind (lookupA (buildAgents docsOf wikiTitles))) ∧
    (topQueryEngine docsOf).similarity_top_k = 1 ∧
    (routeQuery (topQueryEngine docsOf) ranking).length ≤ 1 := by
  refine ⟨rfl, ?_, ?_, rfl, ?_⟩
  · interval_cases i <;> rfl
  · interval_cases i <;> rfl
  · show (ranking.take 1).length ≤ 1
    simp [List.length_take]

theorem c9_objects_witness :
    (0 : Nat) < 5 ∧
    ((buildObjects docsOfW).length = wikiTitles.length ∧
     ((buildObjects docsOfW)[0]?.map IndexNode.index_id) = wikiTitles[0]? ∧
     ((buildObjects docsOfW)[0]?.map IndexNode.obj)
       = (wikiTitles[0]?.bind (lookupA (buildAgents docsOfW wikiTitles))) ∧
     (topQueryEngine docsOfW).similarity_top_k = 1 ∧
     (routeQuery (topQueryEngine docsOfW) []).length ≤ 1) :=
  ⟨by decide, c9_objects docsOfW [] 0 (by decide)⟩

/-! ## External embedding and LLM services

retriever_nomic.retrieve and query_engine.query call external services: the
embedding provider maps text to a vector, and retrieval ranks the local
documents by similarity of their embeddings to the query embedding; the LLM
provider maps the assembled prompt to a response string.  Both services are
oracles outside this repository. -/

/-- The external embedding service. -/
structure EmbedService where
  embed : String → List Int

/-- The external LLM service. -/
structure LLMService where
  complete : String → String

/-- Inner product of two embedding vectors. -/
def dotInt : List Int → List Int → Int
  | [], _ => 0
  | _, [] => 0
  | a :: as, b :: bs => a * b + dotInt as bs

/-- Similarity score of every document against the query, under a service. -/
def scoreDocs (svc : EmbedService) (docs : List String) (q : String) :
    List (String × Int) :=
  docs.map (fun d => (d, dotInt (svc.embed q) (svc.embed d)))

/-- Insert into a list sorted by descending score. -/
def insertRanked (p : String × Int) : List (String × Int) → List (String × Int)
  | [] => [p]
  | x :: xs => if x.2 ≤ p.2 then p :: x :: xs else x :: insertRanked p xs

/-- Sort scored documents by descending score. -/
def rankDocs : List (String × Int) → List (String × Int)
  | [] => []
  | x :: xs => insertRanked x (rankDocs xs)

/-- retriever.retrieve(q): the top k documents by similarity, as computed
from the embeddings the external service returns. -/
def retrieveTop (svc : EmbedService) (docs : List String) (q : String) (k : Nat) :
    List String :=
  ((rankDocs (scoreDocs svc docs q)).take k).map Prod.fst

/-- query_engine.query(q): the external LLM completes a prompt assembled
from the retrieved context and the query. -/
def queryAnswer (svc : EmbedService) (llm : LLMService) (docs : List String)
    (q : String) : String :=
  llm.complete (String.intercalate " " (retrieveTop svc docs q 2) ++ " " ++ q)

/-- C6: the retrieved nodes and the query-engine responses are not a
function of the local documents and query alone: with the documents and the
query fixed, two runs against external services that answer differently can
return different outputs. -/
theorem c6_external_dependence :
    (∃ s1 s2 : EmbedService, ∃ docs : List String, ∃ q : String,
      retrieveTop s1 docs q 2 ≠ retrieveTop s2 docs q 2) ∧
    (∃ l1 l2 : LLMService, ∃ s : EmbedService, ∃ docs : List String, ∃ q : String,
      queryAnswer s l1 docs q ≠ queryAnswer s l2 docs q) := by
  constructor
  · refine ⟨{ embed := fun s => if s = "B" then [0, 1] else [1, 0] },
      { embed := fun s => if s = "q" then [0, 1] else if s = "B" then [0, 1] else [1, 0] },
      ["A", "B"], "q", ?_⟩
    decide
  · refine ⟨{ complete := fun _ => "x" }, { complete := fun _ => "y" },
      { embed := fun _ => [] }, [], "q", ?_⟩
    decide

/-! ## The cell-sequence trace of the two notebooks

Both notebooks are straight-line cell sequences; each cell performs a fixed
list of observable operations.  The Step type lists the operations the
notebooks perform, together with the concurrency constructs the source
language offers (thread spawn, task creation, scheduling) which the
notebooks never use.  Credential-bearing constructor arguments are recorded
explicitly: buildEmbedModel carries the name of the variable passed as its
api_key argument, when one is passed. -/

inductive Step where
  | setEnv (name : String)
  | assignVar (name : String)
  | fetchRemote (url : String)
  | writeLocal (path mode : String)
  | loadDocuments (source : String)
  | buildEmbedModel (model : String) (apiKeyArg : Option String)
  | buildLLM (model : String)
  | buildIndex (kind owner : String)
  | buildRetriever (kind owner : String)
  | buildQueryEngine (kind owner : String)
  | buildAgent (owner : String)
  | runQuery (owner : String)
  | printOutput
  | spawnThread
  | createTask
  | scheduleJob
deriving DecidableEq, Repr

/-- The cell sequence of the first notebook (the Nomic embedding demo):
set OPENAI_API_KEY, wget the Paul Graham essay, load it, assign the Nomic
key to a plain variable, build NomicEmbedding passing that variable as
api_key, build the vector index, derive the retriever with
similarity_top_k = 2, retrieve, display the retrieved nodes. -/
def notebook1Trace : List Step :=
  [Step.setEnv "OPENAI_API_KEY",
   Step.fetchRemote "https://raw.githubusercontent.com/run-llama/llama_index/main/docs/examples/data/paul_graham/paul_graham_essay.txt",
   Step.writeLocal "data/paul_graham/paul_graham_essay.txt" "w",
   Step.loadDocuments "./data/paul_graham/",
   Step.assignVar "nomic_api_key",
   Step.buildEmbedModel "nomic-embed-text-v1" (some "nomic_api_key"),
   Step.buildIndex "vector" "paul_graham",
   Step.buildRetriever "vector" "paul_graham",
   Step.runQuery "paul_graham",
   Step.printOutput, Step.printOutput]

/-- One iteration of the download loop of the second notebook, as trace
steps. -/
def cityDownloadSteps (t : String) : List Step :=
  [Step.fetchRemote wikiApiUrl, Step.writeLocal (dataFile t) "w"]

/-- One iteration of the agent-building loop of the second notebook, as
trace steps: vector index, summary index, the two query engines, the
function LLM, the agent. -/
def cityAgentSteps (t : String) : List Step :=
  [Step.buildIndex "vector" t, Step.buildIndex "summary" t,
   Step.buildQueryEngine "vector" t, Step.buildQueryEngine "summary" t,
   Step.buildLLM "gpt-3.5-turbo-0613", Step.buildAgent t]

/-- The cell sequence of the second notebook (the recursive-retriever agents
demo): download the five articles, load city_docs, set OPENAI_API_KEY,
build the gpt-3.5-turbo LLM, run the agent-building loop, build the
top-level vector index over the IndexNode objects and its query engine with
similarity_top_k = 1, then run three queries and print each response. -/
def notebook2Trace : List Step :=
  (wikiTitles.map cityDownloadSteps).flatten
    ++ wikiTitles.map (fun t => Step.loadDocuments (dataFile t))
    ++ [Step.setEnv "OPENAI_API_KEY", Step.buildLLM "gpt-3.5-turbo"]
    ++ (wikiTitles.map cityAgentSteps).flatten
    ++ [Step.buildIndex "vector" "top_objects",
        Step.buildQueryEngine "vector" "top_objects"]
    ++ [Step.runQuery "top_objects", Step.printOutput,
        Step.runQuery "top_objects", Step.printOutput,
        Step.runQuery "top_objects", Step.printOutput]

/-- The credential a step passes directly to an external library, when any:
only the api_key constructor argument of NomicEmbedding. -/
def directCredArg : Step → Option String
  | Step.buildEmbedModel _ a => a
  | _ => none

/-- Is the step one of the concurrency constructs. -/
def isConcurrency : Step → Bool
  | Step.spawnThread => true
  | Step.createTask => true
  | Step.scheduleJob => true
  | _ => false

/-- The phase of a step in the order claimed by the spec: credentials,
then loading, then embedding/LLM/index construction, then retriever and
query-engine building, then queries and printing. -/
def claimPhase : Step → Nat
  | Step.setEnv _ => 1
  | Step.assignVar _ => 1
  | Step.fetchRemote _ => 2
  | Step.writeLocal _ _ => 2
  | Step.loadDocuments _ => 2
  | Step.buildEmbedModel _ _ => 3
  | Step.buildLLM _ => 3
  | Step.buildIndex _ _ => 3
  | Step.buildRetriever _ _ => 4
  | Step.buildQueryEngine _ _ => 4
  | Step.buildAgent _ => 4
  | Step.runQuery _ => 5
  | Step.printOutput => 5
  | _ => 0

/-- The coarser phase order that does hold: credential setting, fetching
and loading together first, then all construction, then queries and
printing. -/
def amendedPhase : Step → Nat
  | Step.setEnv _ => 1
  | Step.assignVar _ => 1
  | Step.fetchRemote _ => 1
  | Step.writeLocal _ _ => 1
  | Step.loadDocuments _ => 1
  | Step.buildEmbedModel _ _ => 2
  | Step.buildLLM _ => 2
  | Step.buildIndex _ _ => 2
  | Step.buildRetriever _ _ => 2
  | Step.buildQueryEngine _ _ => 2
  | Step.buildAgent _ => 2
  | Step.runQuery _ => 3
  | Step.printOutput => 3
  | _ => 0

/-- Is a list of phase numbers nondecreasing. -/
def isMonotoneNat : List Nat → Bool
  | [] => true
  | [_] => true
  | a :: b :: r => decide (a ≤ b) && isMonotoneNat (b :: r)

/-- Does every retriever or query engine in the trace come after the index
of the same kind and owner it is derived from. -/
def enginesAfterIndex : List Step → List Step → Bool
  | _, [] => true
  | seen, s :: rest =>
    (match s with
      | Step.buildQueryEngine k o => seen.contains (Step.buildIndex k o)
      | Step.buildRetriever k o => seen.contains (Step.buildIndex k o)
      | _ => true)
      && enginesAfterIndex (seen ++ [s]) rest

/-! ## Claim theorems about the cell-sequence traces -/

/-- C2 counterexample: it is not the case that every credential reaches its
external library through an environment variable.  The trace of the first
notebook passes the embedding-provider key directly as the api_key
constructor argument of NomicEmbedding, so the all-credentials-via-
environment property fails on the program. -/
theorem c2_counterexample :
    ¬ (((notebook1Trace ++ notebook2Trace).all
        (fun s => (directCredArg s).isNone)) = true) := by
  decide

/-- C2 amended: both notebooks supply the OpenAI-style key by setting the
environment variable OPENAI_API_KEY, while the embedding-provider key is
held in the plain variable nomic_api_key and is the single credential passed
directly to an external library, as the api_key argument of NomicEmbedding. -/
theorem c2_amended_channels :
    Step.setEnv "OPENAI_API_KEY" ∈ notebook1Trace ∧
    Step.setEnv "OPENAI_API_KEY" ∈ notebook2Trace ∧
    Step.assignVar "nomic_api_key" ∈ notebook1Trace ∧
    ((notebook1Trace ++ notebook2Trace).filter (fun s => (directCredArg s).isSome))
      = [Step.buildEmbedModel "nomic-embed-text-v1" (some "nomic_api_key")] := by
  decide

/-- C4 counterexample: the five claimed phases are not executed in order.
In the first notebook the embedding-provider credential is assigned after
the documents are loaded, and in the second notebook the OPENAI_API_KEY
credential is set after the articles are downloaded and loaded (and the
agent loop interleaves index construction with query-engine building across
titles), so the phase sequence of at least one notebook is not
nondecreasing. -/
theorem c4_counterexample :
    ¬ (isMonotoneNat (notebook1Trace.map claimPhase) = true ∧
       isMonotoneNat (notebook2Trace.map claimPhase) = true) := by
  decide

/-- C4 amended: in each notebook every credential-setting, fetching and
loading step precedes every model, index, retriever, query-engine and agent
construction step, every construction step precedes every query and print
step, and every retriever or query engine is built after the index of the
same kind and owner it is derived from. -/
theorem c4_amended_order :
    (isMonotoneNat (notebook1Trace.map amendedPhase) = true ∧
     enginesAfterIndex [] notebook1Trace = true) ∧
    (isMonotoneNat (notebook2Trace.map amendedPhase) = true ∧
     enginesAfterIndex [] notebook2Trace = true) := by
  decide

/-- C7: neither notebook trace contains a thread spawn, task creation or
scheduling step; every operation of both notebooks is one of the sequential
steps of the straight-line cell traces. -/
theorem c7_no_concurrency :
    ((notebook1Trace ++ notebook2Trace).all (fun s => !(isConcurrency s))) = true := by
  decide

end NotebookModel
